import Mathlib

/- Shallow embedding of the FormoTensor python bridge
(src/python/formotensor_bridge.cpp).

The bridge operates on an opaque python state object whose capabilities
(getTensor, getTensors, per-tensor extents and data attributes) are
discovered at call time with py::hasattr.  We model such an object as a
record of optional capabilities; each capability that the C++ code calls
through the python API is a function that can either produce a value or
raise a python exception, modelled with Except String.  The C++ functions
translate to Lean functions over these records, following the source
line by line:

  * has_tensors            (lines 42-44)
  * get_tensor_info        (lines 47-85)
  * extract_tensor_data    (lines 88-165)
  * get_all_tensors_info   (lines 168-197)

Element counts and byte sizes are size_t values in the source, so the
products are computed modulo 2 ^ 64.  The numerical content of device
memory is out of scope for the design, so one 16-byte complex-double
element is abstracted as a bit pattern (a natural number); the CUDA
device is a map from element addresses to contents plus a failure oracle
for device-to-host copies, matching the external device-transfer
primitive at its interface boundary. -/

namespace FormoTensor

/-- Modulus of size_t arithmetic: the C++ code accumulates element counts
and byte sizes in 64-bit unsigned integers, which wrap on overflow. -/
def W64 : Nat := 2 ^ 64

/-- Abstract complex-double element, identified with its 16-byte bit
pattern. -/
abbrev Complex128 := Nat

/-- The values a resolved data attribute can take, as far as the bridge
distinguishes them: a python integer (py::int_, interpreted as a numeric
device address), a capsule-like object castable to a raw void pointer, or
anything else (cast to void pointer fails with py::cast_error). -/
inductive PyVal where
  | intVal (addr : Nat)
  | capsule (addr : Nat)
  | other
deriving Repr, DecidableEq

/-- Outcome of invoking the data attribute as a callable
(tensor_obj.attr(...)() at line 109).  Both notCallable (a TypeError
because the attribute is not callable) and raised (any other python
exception escaping the call) surface in C++ as py::error_already_set. -/
inductive CallOutcome where
  | ok (v : PyVal)
  | notCallable
  | raised (msg : String)
deriving Repr, DecidableEq

/-- The data-bearing capability of a tensor object: the outcome of
invoking it as a callable, and the value obtained by reading it as a
plain property. -/
structure DataAttr where
  call : CallOutcome
  prop : PyVal
deriving Repr, DecidableEq

/-- A tensor-like object returned by getTensor.  extents is none when the
object has no extents attribute; some (.error e) when the attribute is
present but the cast to std::vector of size_t raises; some (.ok l) when
the cast yields the dimension list.  dataAttr is none when the object has
no data attribute. -/
structure TensorObj where
  extents : Option (Except String (List Nat))
  dataAttr : Option DataAttr

/-- The collection returned by getTensors.  len is none when the
collection has no length capability; some (.error e) when py::len
raises; some (.ok n) when it reports n tensors. -/
structure TensorsObj where
  len : Option (Except String Nat)

/-- An opaque cudaq.State handle: getTensor is none when the handle does
not expose the single-tensor accessor, otherwise a fallible function
from the index to a tensor object; getTensors is none when the handle
does not expose the whole-network accessor, otherwise the fallible
result of invoking it. -/
structure PyState where
  getTensor : Option (Nat → Except String TensorObj)
  getTensors : Option (Except String TensorsObj)

/-- The TensorInfo structure of lines 19-27.  device_ptr is 0 in the
default constructor and set to 1 when the data attribute is present
(non-zero means data is available, line 75). -/
structure TensorInfo where
  shape : List Nat
  total_elements : Nat
  size_bytes : Nat
  dtype : String
  device_ptr : Nat
deriving Repr, DecidableEq

/-- data_available as the spec reads the descriptor: the device_ptr field
is non-zero (the source comments device_ptr with 0 meaning not
available). -/
def TensorInfo.data_available (i : TensorInfo) : Bool := i.device_ptr != 0

/-- The running product loop total_elements = 1; total_elements *= dim,
in wrapping size_t arithmetic (lines 64-67 and 126-129). -/
def prodW (l : List Nat) : Nat := l.foldl (fun a d => a * d % W64) 1

/-- The CUDA device at its interface boundary: contents per element
address, and a failure oracle telling whether a device-to-host copy of a
given element count from a given address fails, with the device error
text. -/
structure Device where
  cell : Nat → Complex128
  copyErr : Nat → Nat → Option String

/-- cudaMemcpy(..., cudaMemcpyDeviceToHost) at element granularity: on
success the host buffer holds exactly count elements read from the
device starting at ptr; on failure the copy reports an error string. -/
def Device.memcpyDtoH (dev : Device) (ptr count : Nat) : Except String (List Complex128) :=
  match dev.copyErr ptr count with
  | some e => .error e
  | none => .ok ((List.range count).map fun i => dev.cell (ptr + i))

/-- The numpy array handed back by extract_tensor_data: a flat host
buffer of elements together with the shape it is reshaped to. -/
structure HostBuffer where
  shape : List Nat
  data : List Complex128
deriving Repr, DecidableEq

/-- has_tensors, lines 42-44: hasattr getTensors or hasattr getTensor. -/
def has_tensors (s : PyState) : Bool :=
  s.getTensors.isSome || s.getTensor.isSome

/-- get_tensor_info, lines 47-85.  Throws when getTensor is absent;
re-signals any exception from the accessor call or the extents cast with
the prefix at line 80; otherwise fills a TensorInfo: with extents, the
shape, wrapped product, byte size and complex128 tag (lines 59-70);
without extents the default-constructed zero descriptor; in both cases
device_ptr is 1 exactly when the data attribute is present (lines
73-76). -/
def get_tensor_info (s : PyState) (idx : Nat) : Except String TensorInfo :=
  match s.getTensor with
  | none => .error ("State object does not support getTensor()")
  | some gt =>
    match gt idx with
    | .error e => .error ("Failed to get tensor info: " ++ e)
    | .ok t =>
      match t.extents with
      | some (.error e) => .error ("Failed to get tensor info: " ++ e)
      | some (.ok ext) =>
        .ok { shape := ext
              total_elements := prodW ext
              size_bytes := prodW ext * 16 % W64
              dtype := "complex128"
              device_ptr := if t.dataAttr.isSome then 1 else 0 }
      | none =>
        .ok { shape := []
              total_elements := 0
              size_bytes := 0
              dtype := "unknown"
              device_ptr := if t.dataAttr.isSome then 1 else 0 }

/-- The void-pointer cast of pybind11 as the source uses it: capsules
carry an address, anything else fails with py::cast_error. -/
def castVoidPtr : PyVal → Option Nat
  | .capsule a => some a
  | _ => none

/-- Message of py::cast_error as seen through e.what(). -/
def castErrMsg : String := "Unable to cast Python instance to C++ type"

/-- The property fallback of lines 121-122: read the data attribute as a
plain value and cast it to a void pointer. -/
def readPropPtr (v : PyVal) : Except String Nat :=
  match castVoidPtr v with
  | some a => .ok a
  | none => .error castErrMsg

/-- Device-pointer resolution, lines 105-123: first invoke data() as a
callable; on success, a python integer result is reinterpreted as the
address (lines 112-114) and any other result is cast to a void pointer
(line 117, a cast failure propagating as a C++ exception).  If the
invocation raises any python exception (py::error_already_set, whether a
TypeError because data is not callable or a generic error from inside
the call), fall back to reading data as a property (lines 119-123). -/
def resolve_device_ptr (d : DataAttr) : Except String Nat :=
  match d.call with
  | .ok (.intVal n) => .ok n
  | .ok v =>
    match castVoidPtr v with
    | some a => .ok a
    | none => .error castErrMsg
  | .notCallable => readPropPtr d.prop
  | .raised _ => readPropPtr d.prop

/-- extract_tensor_data, lines 88-165.  Throws when getTensor is absent
(line 92); inside the try block, requires both data and extents on the
tensor object (line 100; the source message quotes the attribute names),
casts extents, resolves the device pointer, computes the wrapped element
count, allocates a host vector and copies device to host; a cudaMemcpy
failure throws with the device error text (lines 142-146); every
exception from the try block is re-signalled with the prefix of line
162.  On success the host data is returned as an array shaped by
extents. -/
def extract_tensor_data (dev : Device) (s : PyState) (idx : Nat) :
    Except String HostBuffer :=
  match s.getTensor with
  | none => .error ("State object does not support getTensor()")
  | some gt =>
    match gt idx with
    | .error e => .error ("Failed to extract tensor data: " ++ e)
    | .ok t =>
      match t.dataAttr, t.extents with
      | some d, some extRes =>
        match extRes with
        | .error e => .error ("Failed to extract tensor data: " ++ e)
        | .ok ext =>
          match resolve_device_ptr d with
          | .error e => .error ("Failed to extract tensor data: " ++ e)
          | .ok ptr =>
            match dev.memcpyDtoH ptr (prodW ext) with
            | .error e =>
              .error ("Failed to extract tensor data: CUDA memcpy failed: " ++ e)
            | .ok xs => .ok { shape := ext, data := xs }
      | _, _ =>
        .error ("Failed to extract tensor data: Tensor object does not expose data or extents attributes")

/-- get_all_tensors_info, lines 168-197.  Without getTensors the initial
empty vector is returned (no branch taken); when invoking getTensors or
taking py::len raises, the exception is re-signalled with the prefix of
line 191; without a length capability the empty vector is returned; with
length n, indices 0..n-1 are tried through get_tensor_info and every
failing index is skipped (catch-all at line 183), keeping the succeeding
descriptors in index order. -/
def get_all_tensors_info (s : PyState) : Except String (List TensorInfo) :=
  match s.getTensors with
  | none => .ok []
  | some (.error e) => .error ("Failed to get tensors: " ++ e)
  | some (.ok tc) =>
    match tc.len with
    | none => .ok []
    | some (.error e) => .error ("Failed to get tensors: " ++ e)
    | some (.ok n) =>
      .ok ((List.range n).filterMap fun i => (get_tensor_info s i).toOption)

/-- Two successive extract_tensor_data calls against the same handle and
unchanged device content.  The C++ class has only static member
functions, no data members and no globals, so the embedding of one call
is a pure function and a second call runs in the identical
environment. -/
def extract_twice (dev : Device) (s : PyState) (idx : Nat) :
    Except String HostBuffer × Except String HostBuffer :=
  (extract_tensor_data dev s idx, extract_tensor_data dev s idx)

/- Concrete objects used by counterexamples and witnesses. -/

/-- A handle exposing only getTensor, not getTensors. -/
def sC1 : PyState :=
  { getTensor := some fun _ => .ok { extents := some (.ok [2, 2]), dataAttr := none }
    getTensors := none }

/-- Claim C1 counterexample: a handle without the whole-network accessor.
get_all_tensors_info returns the empty list successfully instead of
failing with a handle-level error, refuting the claim at this input. -/
theorem c1_counterexample :
    sC1.getTensors = none ∧ get_all_tensors_info sC1 = Except.ok [] :=
  ⟨rfl, rfl⟩

/-- Claim C1 (amended): for every state handle that does not expose the
whole-network accessor getTensors, get_all_tensors_info returns an empty
sequence without raising; the absence is folded into an empty result,
not surfaced as an error. -/
theorem c1_no_getTensors_returns_empty (s : PyState) (h : s.getTensors = none) :
    get_all_tensors_info s = Except.ok [] := by
  unfold get_all_tensors_info
  rw [h]

/-- Witness for claim C1: the amended theorem applied to a concrete
handle lacking getTensors. -/
theorem c1_witness : get_all_tensors_info sC1 = Except.ok [] :=
  c1_no_getTensors_returns_empty sC1 rfl

/-- A tensor object with no extents attribute but with a data attribute. -/
def tC2 : TensorObj :=
  { extents := none, dataAttr := some { call := .notCallable, prop := .other } }

def gtC2 : Nat → Except String TensorObj := fun _ => .ok tC2

def sC2 : PyState := { getTensor := some gtC2, getTensors := none }

/-- Claim C2 counterexample: a tensor object without a shape-bearing
property but with a data attribute yields a descriptor whose
data_available reads true, refuting that it is false regardless of the
data capability. -/
theorem c2_counterexample :
    tC2.extents = none ∧ tC2.dataAttr.isSome = true ∧
      Except.map TensorInfo.data_available (get_tensor_info sC2 0) = Except.ok true :=
  ⟨rfl, rfl, rfl⟩

/-- Claim C2 (amended): for every tensor object reachable by index that
has no shape-bearing property, get_tensor_info returns a descriptor
whose data_available field is true exactly when the object exposes a
data-bearing capability, and false when it does not. -/
theorem c2_no_shape_data_probe (s : PyState) (gt : Nat → Except String TensorObj)
    (t : TensorObj) (idx : Nat)
    (h1 : s.getTensor = some gt) (h2 : gt idx = Except.ok t) (h3 : t.extents = none) :
    Except.map TensorInfo.data_available (get_tensor_info s idx) =
      Except.ok t.dataAttr.isSome := by
  unfold get_tensor_info
  simp only [h1, h2, h3]
  cases hd : t.dataAttr <;> simp [hd, TensorInfo.data_available, Except.map]

/-- Witness for claim C2: the amended theorem applied to the concrete
no-shape tensor with a data attribute. -/
theorem c2_witness :
    Except.map TensorInfo.data_available (get_tensor_info sC2 0) = Except.ok true :=
  c2_no_shape_data_probe sC2 gtC2 tC2 0 rfl rfl rfl

/-- Claim C7: has_tensors returns true exactly when the handle exposes
the single-tensor accessor getTensor or the whole-network accessor
getTensors; it is a total boolean function, so a handle exposing neither
yields false without raising. -/
theorem c7_has_tensors_iff (s : PyState) :
    has_tensors s = true ↔ (s.getTensor.isSome = true ∨ s.getTensors.isSome = true) := by
  obtain ⟨gt, gts⟩ := s
  unfold has_tensors
  cases gt <;> cases gts <;> simp

def sC7n : PyState := { getTensor := none, getTensors := none }

def sC7a : PyState := { getTensor := some fun _ => .error ("x"), getTensors := none }

def sC7b : PyState := { getTensor := none, getTensors := some (.error ("y")) }

/-- Witness for claim C7: a handle with neither accessor yields false, a
handle with exactly one accessor (either one) yields true. -/
theorem c7_witness :
    has_tensors sC7n = false ∧ has_tensors sC7a = true ∧ has_tensors sC7b = true := by
  refine ⟨?_, (c7_has_tensors_iff sC7a).mpr (Or.inl rfl),
    (c7_has_tensors_iff sC7b).mpr (Or.inr rfl)⟩
  cases h : has_tensors sC7n
  · rfl
  · rcases (c7_has_tensors_iff sC7n).mp h with h1 | h1 <;> simp [sC7n] at h1

/-- A tensor object with no extents attribute but with a data attribute
whose property read carries a capsule. -/
def tC8 : TensorObj :=
  { extents := none, dataAttr := some { call := .notCallable, prop := .capsule 3 } }

def gtC8 : Nat → Except String TensorObj := fun _ => .ok tC8

def sC8 : PyState := { getTensor := some gtC8, getTensors := none }

/-- Claim C8: when the accessor call succeeds but the tensor object has
no shape-bearing property, get_tensor_info does not raise and returns
the default descriptor with empty shape, zero elements and bytes, dtype
unknown, and data_available reflecting only the data-capability
probe. -/
theorem c8_no_shape_default_descriptor (s : PyState) (gt : Nat → Except String TensorObj)
    (t : TensorObj) (idx : Nat)
    (h1 : s.getTensor = some gt) (h2 : gt idx = Except.ok t) (h3 : t.extents = none) :
    get_tensor_info s idx = Except.ok
      { shape := [], total_elements := 0, size_bytes := 0, dtype := "unknown",
        device_ptr := if t.dataAttr.isSome then 1 else 0 } ∧
    Except.map TensorInfo.data_available (get_tensor_info s idx) =
      Except.ok t.dataAttr.isSome := by
  unfold get_tensor_info
  simp only [h1, h2, h3]
  refine ⟨trivial, ?_⟩
  cases hd : t.dataAttr <;> simp [hd, TensorInfo.data_available, Except.map]

/-- Witness for claim C8: the theorem applied to a concrete no-shape
tensor object whose data attribute is present. -/
theorem c8_witness :
    get_tensor_info sC8 0 = Except.ok
      { shape := [], total_elements := 0, size_bytes := 0, dtype := "unknown",
        device_ptr := 1 } :=
  (c8_no_shape_default_descriptor sC8 gtC8 tC8 0 rfl rfl rfl).1

/-- filterMap of a function that never produces a value is empty. -/
theorem filterMap_none_of_forall {α β : Type} (l : List α) (f : α → Option β)
    (h : ∀ a, f a = none) : l.filterMap f = [] := by
  induction l with
  | nil => rfl
  | cons a l ih => simp [List.filterMap_cons, h, ih]

/-- Claim C10: a handle exposing getTensors with a length capability but
not getTensor makes every per-index get_tensor_info attempt fail on the
missing getTensor accessor; every failure is skipped, so the batch call
returns an empty sequence without raising. -/
theorem c10_missing_getTensor_empty (s : PyState) (tc : TensorsObj) (n : Nat)
    (h0 : s.getTensor = none) (h1 : s.getTensors = some (Except.ok tc))
    (h2 : tc.len = some (Except.ok n)) :
    get_all_tensors_info s = Except.ok [] := by
  unfold get_all_tensors_info
  simp only [h1, h2]
  have hnone : ∀ i : Nat, (get_tensor_info s i).toOption = none := by
    intro i
    unfold get_tensor_info
    rw [h0]
    rfl
  exact congrArg Except.ok (filterMap_none_of_forall (List.range n) _ hnone)

def sC10 : PyState :=
  { getTensor := none, getTensors := some (.ok { len := some (.ok 3) }) }

/-- Witness for claim C10: a concrete handle with a three-element
network but no single-tensor accessor yields the empty sequence. -/
theorem c10_witness : get_all_tensors_info sC10 = Except.ok [] :=
  c10_missing_getTensor_empty sC10 { len := some (.ok 3) } 3 rfl rfl rfl

/-- A tensor object with neither extents nor data attribute. -/
def tC3 : TensorObj := { extents := none, dataAttr := none }

def gtC3 : Nat → Except String TensorObj := fun _ => .ok tC3

def sC3 : PyState := { getTensor := some gtC3, getTensors := none }

/-- Claim C3 counterexample: the descriptor returned for a tensor object
without a shape-bearing property has shape [] and total_elements 0,
while the product over the empty shape is 1, refuting the claimed
invariant for every returned descriptor. -/
theorem c3_counterexample :
    Except.map (fun i => (i.shape, i.total_elements)) (get_tensor_info sC3 0) =
      Except.ok ([], 0) ∧ prodW [] = 1 :=
  ⟨rfl, rfl⟩

/-- Claim C3 (amended): every descriptor returned by get_tensor_info (and
hence every member of a get_all_tensors_info result) satisfies
size_bytes = total_elements * 16 reduced modulo 2 ^ 64 (size_t
arithmetic), and total_elements equals the wrapped product of the shape
entries, except for descriptors of tensors lacking the shape-bearing
property, which have shape [] and total_elements 0. -/
theorem c3_descriptor_invariants :
    (∀ (s : PyState) (idx : Nat) (i : TensorInfo),
        get_tensor_info s idx = Except.ok i →
          i.size_bytes = i.total_elements * 16 % W64 ∧
            (i.total_elements = prodW i.shape ∨ (i.shape = [] ∧ i.total_elements = 0))) ∧
    (∀ (s : PyState) (l : List TensorInfo) (i : TensorInfo),
        get_all_tensors_info s = Except.ok l → i ∈ l →
          i.size_bytes = i.total_elements * 16 % W64 ∧
            (i.total_elements = prodW i.shape ∨ (i.shape = [] ∧ i.total_elements = 0))) := by
  have hone : ∀ (s : PyState) (idx : Nat) (i : TensorInfo),
      get_tensor_info s idx = Except.ok i →
        i.size_bytes = i.total_elements * 16 % W64 ∧
          (i.total_elements = prodW i.shape ∨ (i.shape = [] ∧ i.total_elements = 0)) := by
    intro s idx i h
    unfold get_tensor_info at h
    split at h
    · simp at h
    · split at h
      · simp at h
      · split at h
        · simp at h
        · injection h with h
          subst h
          exact ⟨rfl, Or.inl rfl⟩
        · injection h with h
          subst h
          exact ⟨by simp, Or.inr ⟨rfl, rfl⟩⟩
  refine ⟨hone, ?_⟩
  intro s l i hl hm
  unfold get_all_tensors_info at hl
  split at hl
  · injection hl with hl
    subst hl
    simp at hm
  · simp at hl
  · split at hl
    · injection hl with hl
      subst hl
      simp at hm
    · simp at hl
    · injection hl with hl
      subst hl
      rcases List.mem_filterMap.mp hm with ⟨a, _, hfa⟩
      have hfa' : (get_tensor_info s a).toOption = some i := hfa
      cases hga : get_tensor_info s a with
      | error e =>
        rw [hga] at hfa'
        exact absurd hfa' (by simp [Except.toOption])
      | ok j =>
        rw [hga] at hfa'
        have hj : some j = some i := hfa'
        injection hj with hj
        subst hj
        exact hone s a j hga

/-- A tensor object whose extents cast yields a concrete shape. -/
def tC3w : TensorObj :=
  { extents := some (.ok [2, 3])
    dataAttr := some { call := .ok (.intVal 7), prop := .other } }

def gtC3w : Nat → Except String TensorObj := fun _ => .ok tC3w

def sC3w : PyState := { getTensor := some gtC3w, getTensors := none }

/-- The descriptor produced for tC3w. -/
def iC3 : TensorInfo :=
  { shape := [2, 3], total_elements := 6, size_bytes := 96, dtype := "complex128",
    device_ptr := 1 }

/-- Witness for claim C3: the amended invariant instantiated at the
concrete descriptor of a 2 by 3 tensor. -/
theorem c3_witness :
    iC3.size_bytes = iC3.total_elements * 16 % W64 ∧
      (iC3.total_elements = prodW iC3.shape ∨ (iC3.shape = [] ∧ iC3.total_elements = 0)) :=
  c3_descriptor_invariants.1 sC3w 0 iC3 (by rfl)

/-- The data attribute of the C4 counterexample: invoking the callable
raises a generic python error, and the plain property carries a valid
capsule address. -/
def dC4 : DataAttr := { call := .raised ("boom"), prop := .capsule 100 }

def tC4 : TensorObj := { extents := some (.ok [2]), dataAttr := some dC4 }

def gtC4 : Nat → Except String TensorObj := fun _ => .ok tC4

def sC4 : PyState := { getTensor := some gtC4, getTensors := none }

def devC4 : Device := { cell := fun a => a, copyErr := fun _ _ => none }

/-- Claim C4 counterexample: the callable invocation of the data
attribute fails with a generic python error, not an inapplicability
rejection, yet extraction succeeds by falling back to the property read
(the returned buffer holds the device content at the property-carried
address), refuting that the fallback is taken only on an
inapplicability rejection. -/
theorem c4_counterexample :
    dC4.call = CallOutcome.raised ("boom") ∧
      extract_tensor_data devC4 sC4 0 =
        Except.ok { shape := [2], data := [100, 101] } :=
  ⟨rfl, rfl⟩

/-- Claim C4 (amended): device-pointer resolution attempts the callable
invocation first and interprets a successful call without touching the
property: an integer result is reinterpreted as the address, a capsule
result is cast to its address (in both clauses the result is fixed by
the call outcome alone, for every value of the plain property), and an
uninterpretable result fails the resolution with the cast error, again
for every value of the plain property, so no fallback happens on a
failure interpreting the result of a successful call.  The fallback to
the plain-property read happens exactly when the invocation raises a
python-level error, whether the attribute is rejected as not callable
or the call fails generically.  The five clauses cover every call
outcome, so they determine resolve_device_ptr completely. -/
theorem c4_callable_first_python_error_fallback :
    (∀ (d : DataAttr) (n : Nat), d.call = CallOutcome.ok (PyVal.intVal n) →
        resolve_device_ptr d = Except.ok n) ∧
    (∀ (d : DataAttr) (a : Nat), d.call = CallOutcome.ok (PyVal.capsule a) →
        resolve_device_ptr d = Except.ok a) ∧
    (∀ d : DataAttr, d.call = CallOutcome.ok PyVal.other →
        resolve_device_ptr d = Except.error castErrMsg) ∧
    (∀ d : DataAttr,
        (d.call = CallOutcome.notCallable ∨ ∃ m, d.call = CallOutcome.raised m) →
        resolve_device_ptr d = readPropPtr d.prop) := by
  refine ⟨?_, ?_, ?_, ?_⟩
  · intro d n h
    unfold resolve_device_ptr
    rw [h]
  · intro d a h
    unfold resolve_device_ptr
    rw [h]
    rfl
  · intro d h
    unfold resolve_device_ptr
    rw [h]
    rfl
  · intro d h
    unfold resolve_device_ptr
    rcases h with h | ⟨m, h⟩ <;> rw [h]

def dC4a : DataAttr := { call := .ok (.intVal 7), prop := .other }

def dC4b : DataAttr := { call := .raised ("device busy"), prop := .capsule 9 }

/-- A successful capsule-returning call over a property holding a
different address: resolution must use the call result 11, not the
property address 12. -/
def dC4c : DataAttr := { call := .ok (.capsule 11), prop := .capsule 12 }

/-- A successful call with an uninterpretable result over a property
holding a valid address: resolution must fail with the cast error
instead of falling back to the property address 13. -/
def dC4d : DataAttr := { call := .ok PyVal.other, prop := .capsule 13 }

/-- Witness for claim C4: a successful integer-returning call resolves
to that address, a successful capsule-returning call resolves to the
capsule address ignoring the property, a successful call with an
uninterpretable result fails with the cast error despite the property
holding a valid address, and a generically failing call resolves
through the property read. -/
theorem c4_witness :
    resolve_device_ptr dC4a = Except.ok 7 ∧
      resolve_device_ptr dC4c = Except.ok 11 ∧
      resolve_device_ptr dC4d = Except.error castErrMsg ∧
      resolve_device_ptr dC4b = readPropPtr dC4b.prop :=
  ⟨c4_callable_first_python_error_fallback.1 dC4a 7 rfl,
    c4_callable_first_python_error_fallback.2.1 dC4c 11 rfl,
    c4_callable_first_python_error_fallback.2.2.1 dC4d rfl,
    c4_callable_first_python_error_fallback.2.2.2 dC4b (Or.inr ⟨"device busy", rfl⟩)⟩

/-- Claim C6: over an enumerable network of length n, the batch call
never raises for individually failing indices; it returns exactly the
descriptors of the succeeding indices, in index order, each failing
index being skipped. -/
theorem c6_batch_skips_failures (s : PyState) (tc : TensorsObj) (n : Nat)
    (h1 : s.getTensors = some (Except.ok tc)) (h2 : tc.len = some (Except.ok n)) :
    get_all_tensors_info s =
      Except.ok ((List.range n).filterMap fun i => (get_tensor_info s i).toOption) := by
  unfold get_all_tensors_info
  simp only [h1, h2]

def tC6 : TensorObj := { extents := some (.ok [2]), dataAttr := none }

def gtC6 : Nat → Except String TensorObj := fun i =>
  if i = 2 then .error ("malformed tensor") else .ok tC6

def sC6 : PyState :=
  { getTensor := some gtC6, getTensors := some (.ok { len := some (.ok 5) }) }

/-- Witness for claim C6: a five-tensor network in which exactly index 2
fails yields exactly four descriptors. -/
theorem c6_witness :
    Except.map List.length (get_all_tensors_info sC6) = Except.ok 4 := by
  rw [c6_batch_skips_failures sC6 { len := some (.ok 5) } 5 rfl rfl]
  rfl

/-- Claim C9: extraction is deterministic and mutates no bridge state;
two successive extract_tensor_data calls on the same handle and index
with unchanged device content produce the same result, and when both
succeed the buffers are byte-identical (equal data and equal shape).
The C++ helper class has only static member functions, no data members
and no globals, so a call leaves the second call an identical
environment: extract_twice threads no state between the two calls. -/
theorem c9_idempotent_extraction :
    (∀ (dev : Device) (s : PyState) (idx : Nat),
        (extract_twice dev s idx).1 = (extract_twice dev s idx).2) ∧
    (∀ (dev : Device) (s : PyState) (idx : Nat) (b₁ b₂ : HostBuffer),
        (extract_twice dev s idx).1 = Except.ok b₁ →
        (extract_twice dev s idx).2 = Except.ok b₂ →
        b₁.data = b₂.data ∧ b₁.shape = b₂.shape) := by
  constructor
  · intro dev s idx
    rfl
  · intro dev s idx b₁ b₂ h1 h2
    have h : Except.ok (ε := String) b₁ = Except.ok b₂ := by
      rw [← h1, ← h2]
      rfl
    injection h with h
    subst h
    exact ⟨rfl, rfl⟩

def tC9 : TensorObj :=
  { extents := some (.ok [2]), dataAttr := some { call := .ok (.intVal 5), prop := .other } }

def gtC9 : Nat → Except String TensorObj := fun _ => .ok tC9

def sC9 : PyState := { getTensor := some gtC9, getTensors := none }

def devC9 : Device := { cell := fun a => a, copyErr := fun _ _ => none }

def hbC9 : HostBuffer := { shape := [2], data := [5, 6] }

/-- Witness for claim C9: a concrete successful extraction run twice
yields the same buffer both times. -/
theorem c9_witness :
    (extract_twice devC9 sC9 0).1 = Except.ok hbC9 ∧
      hbC9.data = hbC9.data ∧ hbC9.shape = hbC9.shape :=
  ⟨rfl, c9_idempotent_extraction.2 devC9 sC9 0 hbC9 hbC9 rfl rfl⟩

/-- Inversion of a successful extraction: whenever extract_tensor_data
returns a buffer, the device copy did not fail and the buffer holds the
complete device read of prodW shape elements from the resolved
pointer. -/
theorem extract_ok_full_read (dev : Device) (s : PyState) (idx : Nat) (b : HostBuffer)
    (h : extract_tensor_data dev s idx = Except.ok b) :
    ∃ ptr, dev.copyErr ptr (prodW b.shape) = none ∧
      b.data = (List.range (prodW b.shape)).map (fun i => dev.cell (ptr + i)) := by
  unfold extract_tensor_data at h
  cases hg : s.getTensor with
  | none => simp [hg] at h
  | some gt =>
    simp only [hg] at h
    cases hgi : gt idx with
    | error e => simp [hgi] at h
    | ok t =>
      simp only [hgi] at h
      cases hd : t.dataAttr with
      | none =>
        cases he : t.extents with
        | none => simp [hd, he] at h
        | some x => simp [hd, he] at h
      | some d =>
        cases he : t.extents with
        | none => simp [hd, he] at h
        | some extRes =>
          simp only [hd, he] at h
          cases extRes with
          | error e => simp at h
          | ok ext =>
            cases hr : resolve_device_ptr d with
            | error e => simp [hr] at h
            | ok ptr =>
              simp only [hr, Device.memcpyDtoH] at h
              cases hc : dev.copyErr ptr (prodW ext) with
              | some e => simp [hc] at h
              | none =>
                simp only [hc] at h
                injection h with h
                subst h
                exact ⟨ptr, hc, rfl⟩

/-- Claim C5: a failing device-to-host transfer fails the whole
extract_tensor_data call with an error carrying the device-reported
error text behind the CUDA memcpy prefix, and no partially filled host
buffer is ever returned: every buffer the operation does return is the
complete device read of exactly prodW shape elements. -/
theorem c5_transfer_failure_all_or_nothing :
    (∀ (dev : Device) (s : PyState) (idx : Nat) (gt : Nat → Except String TensorObj)
        (t : TensorObj) (d : DataAttr) (ext : List Nat) (ptr : Nat) (e : String),
        s.getTensor = some gt → gt idx = Except.ok t → t.dataAttr = some d →
        t.extents = some (Except.ok ext) → resolve_device_ptr d = Except.ok ptr →
        dev.copyErr ptr (prodW ext) = some e →
        extract_tensor_data dev s idx =
          Except.error ("Failed to extract tensor data: CUDA memcpy failed: " ++ e)) ∧
    (∀ (dev : Device) (s : PyState) (idx : Nat) (b : HostBuffer),
        extract_tensor_data dev s idx = Except.ok b →
        ∃ ptr, dev.copyErr ptr (prodW b.shape) = none ∧
          b.data = (List.range (prodW b.shape)).map (fun i => dev.cell (ptr + i)) ∧
          b.data.length = prodW b.shape) := by
  constructor
  · intro dev s idx gt t d ext ptr e h1 h2 h3 h4 h5 h6
    unfold extract_tensor_data
    simp only [h1, h2, h3, h4, h5, Device.memcpyDtoH, h6]
  · intro dev s idx b h
    obtain ⟨ptr, hc, hdata⟩ := extract_ok_full_read dev s idx b h
    refine ⟨ptr, hc, hdata, ?_⟩
    rw [hdata]
    simp

/-- The concrete failing transfer used by the C5 witness. -/
def dC5 : DataAttr := { call := .ok (.intVal 7), prop := .other }

def tC5 : TensorObj := { extents := some (.ok [2]), dataAttr := some dC5 }

def gtC5 : Nat → Except String TensorObj := fun _ => .ok tC5

def sC5 : PyState := { getTensor := some gtC5, getTensors := none }

def devC5 : Device :=
  { cell := fun a => a, copyErr := fun _ _ => some ("invalid argument") }

/-- Witness for claim C5: a concrete device whose copy fails makes the
extraction fail with the device error text behind the prefixes. -/
theorem c5_witness :
    extract_tensor_data devC5 sC5 0 =
      Except.error ("Failed to extract tensor data: CUDA memcpy failed: invalid argument") :=
  c5_transfer_failure_all_or_nothing.1 devC5 sC5 0 gtC5 tC5 dC5 [2] 7 "invalid argument"
    rfl rfl rfl rfl rfl rfl

end FormoTensor
